import Mathlib

/-!
Shallow embedding of the Compliance Audit Engine
(src/orchestrator/compliance_orchestrator.py and
src/orchestrator/orchestrator_api.py).

Python records are dictionaries; we embed them as a structure of optional
fields covering every key the analyzed code reads (`dict.get` with a default
becomes `Option.getD`).  Risk scores are embedded as rationals ℚ (the spec
treats them as reals; every constant in the source is a decimal literal).
Timestamps are embedded as integer day counts: `datetime.now()` becomes an
explicit `now : Int` parameter and `(now - last_login_date).days` becomes
integer subtraction.  Python string methods `.lower()`, `.upper()` and the
substring test `in` are embedded as character-list functions below.
-/

/-- Substring helper: does the second list occur as a prefix of the first. -/
def startsWithChars : List Char → List Char → Bool
  | [], _ => true
  | _ :: _, [] => false
  | p :: ps, c :: cs => (p == c) && startsWithChars ps cs

/-- Substring helper: does `pat` occur contiguously inside the list. -/
def containsChars (pat : List Char) : List Char → Bool
  | [] => startsWithChars pat []
  | c :: cs => startsWithChars pat (c :: cs) || containsChars pat cs

/-- Embedding of the Python substring test `pat in s`. -/
def strContainsStr (s pat : String) : Bool := containsChars pat.data s.data

/-- Embedding of Python `str.lower()`. -/
def strLower (s : String) : String := ⟨s.data.map Char.toLower⟩

/-- Embedding of Python `str.upper()`. -/
def strUpper (s : String) : String := ⟨s.data.map Char.toUpper⟩

/-- The `lastLogin` value of an identity dictionary, when the key is
present: either a timestamp string that `datetime.fromisoformat` rejects
(`malformed`) or one that parses to a date, embedded as an integer day
number. -/
inductive LoginStamp where
  | malformed
  | loginDay (day : Int)
deriving DecidableEq, Repr

/-- A SailPoint record dictionary (identity or access record).  One field per
key the orchestrator reads; an absent key is `none`.  `clearanceLevel`
stands for the nested lookup `identity.get('attributes', {}).get('clearanceLevel')`
(absent `attributes` and absent `clearanceLevel` both give `none`).
`compliance` is the `compliance` sub-dictionary as an association list in
insertion order, as Python dict iteration yields it. -/
structure RecordData where
  riskScore : Option ℚ := none
  status : Option String := none
  clearanceLevel : Option String := none
  lastLogin : Option LoginStamp := none
  compliance : List (String × Bool) := []
  violatesSOD : Option Bool := none
  isPrivileged : Option Bool := none
  certificationStatus : Option String := none
  riskLevel : Option String := none
deriving DecidableEq, Repr

/-- The analysis dictionary produced by `ComplianceAnalyzer` (fields of
`_parse_ai_response`, `_rule_based_identity_analysis`,
`_rule_based_access_analysis`, `_default_analysis`).  `timestamp` is the
`now` parameter standing for `datetime.now().isoformat()`. -/
structure ComplianceAnalysis where
  is_compliant : Bool
  risk_score : ℚ
  violations : List String
  recommendation : String
  ai_response : String
  confidence : ℚ
  analysis_type : String
  timestamp : Int
deriving DecidableEq, Repr

/-- Violation list and (pre-clamp) risk score accumulated by
`_rule_based_identity_analysis` (compliance_orchestrator.py lines 273-297):
start from the record's `riskScore` (default 0.5); `Terminated` status
appends a tag and adds 0.5; then `risk_score > 0.7` appends a tag; then
`Restricted` clearance appends a tag; then a present, parseable last login
more than 90 days old appends a tag and adds 0.2 (absent or malformed last
login is skipped by the bare `except: pass`). -/
def identity_checks (now : Int) (identity : RecordData) : List String × ℚ :=
  let risk0 : ℚ := identity.riskScore.getD (1/2)
  let v1 : List String :=
    if identity.status = some "Terminated" then ["Terminated user with active accounts"] else []
  let risk1 : ℚ := if identity.status = some "Terminated" then risk0 + 1/2 else risk0
  let v2 := if risk1 > 7/10 then v1 ++ ["High risk score"] else v1
  let v3 := if identity.clearanceLevel = some "Restricted"
    then v2 ++ ["Restricted clearance requires review"] else v2
  match identity.lastLogin with
  | some (.loginDay d) =>
      if now - d > 90 then (v3 ++ ["No login activity for 90+ days"], risk1 + 1/5)
      else (v3, risk1)
  | _ => (v3, risk1)

/-- Embedding of `_rule_based_identity_analysis`
(compliance_orchestrator.py lines 271-310). -/
def rule_based_identity_analysis (now : Int) (identity : RecordData) : ComplianceAnalysis :=
  let c := identity_checks now identity
  let isc : Bool := c.1.isEmpty && decide (c.2 ≤ (1/2 : ℚ))
  { is_compliant := isc
    risk_score := min c.2 1
    violations := c.1
    recommendation := if isc then "APPROVE" else "INVESTIGATE"
    ai_response := "Rule-based analysis: " ++ (if isc then "Compliant" else "Non-compliant")
    confidence := 3/4
    analysis_type := "rule_based"
    timestamp := now }

/-- Violation list and (pre-clamp) risk score accumulated by
`_rule_based_access_analysis` (compliance_orchestrator.py lines 314-339):
start at 0.3; each compliance-regime flag that is false appends
`"<REGIME> compliance violation"` and adds 0.2 (in dict order); then the
SOD flag, the privileged flag, `Expired` certification and `High` risk
level each append a tag and add their increment. -/
def access_checks (r : RecordData) : List String × ℚ :=
  let s0 := r.compliance.foldl
    (fun (acc : List String × ℚ) p =>
      if p.2 then acc
      else (acc.1 ++ [strUpper p.1 ++ " compliance violation"], acc.2 + 1/5))
    ([], 3/10)
  let s1 := if r.violatesSOD.getD false
    then (s0.1 ++ ["Segregation of duties violation"], s0.2 + 3/10) else s0
  let s2 := if r.isPrivileged.getD false
    then (s1.1 ++ ["Privileged access requires review"], s1.2 + 1/5) else s1
  let s3 := if r.certificationStatus = some "Expired"
    then (s2.1 ++ ["Expired certification"], s2.2 + 1/5) else s2
  if r.riskLevel = some "High"
    then (s3.1 ++ ["High risk access"], s3.2 + 1/5) else s3

/-- Embedding of `_rule_based_access_analysis`
(compliance_orchestrator.py lines 312-352). -/
def rule_based_access_analysis (now : Int) (r : RecordData) : ComplianceAnalysis :=
  let c := access_checks r
  let isc : Bool := c.1.isEmpty && decide (c.2 ≤ (1/2 : ℚ))
  { is_compliant := isc
    risk_score := min c.2 1
    violations := c.1
    recommendation := if isc then "APPROVE" else "INVESTIGATE"
    ai_response := "Rule-based analysis: " ++ (if isc then "Compliant" else "Non-compliant")
    confidence := 3/4
    analysis_type := "rule_based"
    timestamp := now }

/-- Embedding of `_parse_ai_response`
(compliance_orchestrator.py lines 244-269): keyword inspection of the model
response; `is_compliant` holds iff the lowered text contains "compliant"
and not "non-compliant"; three keyword checks append violation tags;
the risk score is the record's `riskScore` (default 0.5), raised to at
least 0.7 when not compliant. -/
def parse_ai_response (now : Int) (response : String) (data : RecordData) : ComplianceAnalysis :=
  let rlow := strLower response
  let isc : Bool :=
    strContainsStr rlow "compliant" && !(strContainsStr rlow "non-compliant")
  let violations : List String :=
    (if strContainsStr rlow "sox" &&
        (strContainsStr rlow "violation" || strContainsStr rlow "non-compliant")
     then ["SOX compliance violation"] else [])
    ++ (if strContainsStr rlow "segregation" || strContainsStr rlow "sod"
        then ["Segregation of duties violation"] else [])
    ++ (if strContainsStr rlow "privilege" && strContainsStr rlow "escalation"
        then ["Privilege escalation risk"] else [])
  let risk0 : ℚ := data.riskScore.getD (1/2)
  let risk : ℚ := if isc then risk0 else max risk0 (7/10)
  { is_compliant := isc
    risk_score := risk
    violations := violations
    recommendation := if isc then "APPROVE" else "INVESTIGATE"
    ai_response := response
    confidence := 17/20
    analysis_type := "ai_model"
    timestamp := now }

/-- Embedding of `_default_analysis` (compliance_orchestrator.py
lines 354-365), the fixed sentinel returned when analysis fails. -/
def default_analysis (now : Int) : ComplianceAnalysis :=
  { is_compliant := false
    risk_score := 1/2
    violations := ["Analysis failed"]
    recommendation := "MANUAL_REVIEW"
    ai_response := "Unable to complete analysis"
    confidence := 0
    analysis_type := "default"
    timestamp := now }

/-- Embedding of `_ai_analysis` (compliance_orchestrator.py lines 221-242).
The tokenize/generate/decode pipeline is abstracted as
`modelOut : Except Unit String`: `.ok response` when the model produced
text, `.error ()` when any step raised.  The `except` clause falls back to
`_rule_based_access_analysis(data)` whatever kind of record `data` is. -/
def ai_analysis (modelOut : Except Unit String) (now : Int) (data : RecordData) :
    ComplianceAnalysis :=
  match modelOut with
  | .ok response => parse_ai_response now response data
  | .error _ => rule_based_access_analysis now data

/-- Embedding of `analyze_identity_risk` (compliance_orchestrator.py
lines 151-167), body of the `try`: use the model path when the model and
tokenizer are loaded (`modelLoaded`), otherwise the identity rules. -/
def analyze_identity_risk (modelLoaded : Bool) (modelOut : Except Unit String)
    (now : Int) (identity : RecordData) : ComplianceAnalysis :=
  if modelLoaded then ai_analysis modelOut now identity
  else rule_based_identity_analysis now identity

/-- Embedding of `analyze_access_compliance` (compliance_orchestrator.py
lines 169-182), body of the `try`. -/
def analyze_access_compliance (modelLoaded : Bool) (modelOut : Except Unit String)
    (now : Int) (r : RecordData) : ComplianceAnalysis :=
  if modelLoaded then ai_analysis modelOut now r
  else rule_based_access_analysis now r

/-- The outer `try/except` of `analyze_identity_risk` /
`analyze_access_compliance`: an analysis body that raised (`.error`) is
downgraded to `_default_analysis`. -/
def analyze_guarded (now : Int) (body : Except Unit ComplianceAnalysis) : ComplianceAnalysis :=
  match body with
  | .ok a => a
  | .error _ => default_analysis now

/-- Result of `SailPointConnector.health_check` (compliance_orchestrator.py
lines 48-56): the parsed JSON on success, or the
`{"status": "unhealthy", "error": str(e)}` dictionary on a request failure.
`error` is the `error` key when present. -/
structure HealthResp where
  status : String
  error : Option String
deriving DecidableEq, Repr

/-- Result of `SailPointConnector.get_identities` / `get_access_records`:
either the failure dictionary `{"success": False, "error": ...}` or a
success response whose `data.items` is a list of records. -/
inductive FetchResp where
  | failure (error : String)
  | ok (items : List RecordData)
deriving DecidableEq, Repr

/-- One round of responses from the SailPoint data source, as consumed by
`run_full_compliance_audit`: the health check, the two record pulls, and
the `data` payloads of the violations and risk-summary reports (opaque
here; the orchestrator only stores them). -/
structure SourceEnv where
  health : HealthResp
  identities : FetchResp
  accessRecords : FetchResp
  violationsData : String
  riskSummaryData : String
deriving DecidableEq, Repr

/-- Summary block of a completed audit (compliance_orchestrator.py
lines 447-456), counts only; the percentage strings are string formatting
of these counts. -/
structure AuditSummary where
  total_identities : Nat
  compliant_identities : Nat
  total_access_records : Nat
  compliant_access_records : Nat
  high_risk_items : Nat
deriving DecidableEq, Repr

/-- The dictionary returned by `run_full_compliance_audit`: the error shape
`{"status": "error", "message": ..., "timestamp": ...}` (lines 385-389 and
400-404) or the completed shape (lines 441-466). -/
inductive AuditOutcome where
  | failed (message : String) (timestamp : Int)
  | completed (summary : AuditSummary)
      (detailedIdentities : List (RecordData × ComplianceAnalysis))
      (detailedAccess : List (RecordData × ComplianceAnalysis))
      (recommendations : List String)
      (violationsData : String) (riskSummaryData : String) (timestamp : Int)
deriving DecidableEq, Repr

/-- The `status` key of an audit outcome dictionary. -/
def AuditOutcome.status : AuditOutcome → String
  | .failed _ _ => "error"
  | .completed _ _ _ _ _ _ _ => "completed"

/-- The `message` key of an audit outcome dictionary (absent on the
completed shape). -/
def AuditOutcome.message : AuditOutcome → Option String
  | .failed m _ => some m
  | .completed _ _ _ _ _ _ _ => none

/-- Embedding of `_generate_recommendations` (compliance_orchestrator.py
lines 506-535): five independent checks in fixed order, each contributing
one string when its filtered list is non-empty, and a single fallback entry
when none apply. -/
def generate_recommendations (identity_results access_results :
    List (RecordData × ComplianceAnalysis)) : List String :=
  let high_risk := identity_results.filter (fun p => p.2.risk_score > 7/10)
  let terminated := identity_results.filter (fun p => p.1.status = some "Terminated")
  let sod := access_results.filter
    (fun p => strContainsStr (strLower (String.intercalate " " p.2.violations)) "segregation")
  let expired := access_results.filter (fun p => p.1.certificationStatus = some "Expired")
  let privileged := access_results.filter (fun p => p.1.isPrivileged.getD false)
  let recs :=
    (if high_risk.length ≠ 0
      then ["Review " ++ toString high_risk.length ++ " high-risk identities"] else [])
    ++ (if terminated.length ≠ 0
      then ["Disable access for " ++ toString terminated.length ++ " terminated users"] else [])
    ++ (if sod.length ≠ 0
      then ["Address " ++ toString sod.length ++ " segregation of duties violations"] else [])
    ++ (if expired.length ≠ 0
      then ["Renew " ++ toString expired.length ++ " expired certifications"] else [])
    ++ (if privileged.length ≠ 0
      then ["Review " ++ toString privileged.length ++ " privileged access grants"] else [])
  if recs = [] then ["No major compliance issues detected"] else recs

/-- Embedding of `run_full_compliance_audit` (compliance_orchestrator.py
lines 378-472): return the error shape when the health check is not
"healthy" (before any pull) or when either record pull failed; otherwise
analyze every identity and access record, aggregate counts, and return the
completed shape with the first five detailed results of each category. -/
def run_full_compliance_audit (now : Int) (modelLoaded : Bool)
    (modelOut : Except Unit String) (env : SourceEnv) : AuditOutcome :=
  if env.health.status ≠ "healthy" then
    .failed ("SailPoint API unavailable: " ++ env.health.error.getD "Unknown error") now
  else
    match env.identities, env.accessRecords with
    | .ok ids, .ok accs =>
        let identity_results := ids.map
          (fun i => (i, analyze_identity_risk modelLoaded modelOut now i))
        let access_results := accs.map
          (fun a => (a, analyze_access_compliance modelLoaded modelOut now a))
        let compliant_ids := identity_results.filter (fun p => p.2.is_compliant)
        let compliant_acc := access_results.filter (fun p => p.2.is_compliant)
        let high_risk := (identity_results ++ access_results).filter
          (fun p => p.2.risk_score > 7/10)
        .completed
          { total_identities := identity_results.length
            compliant_identities := compliant_ids.length
            total_access_records := access_results.length
            compliant_access_records := compliant_acc.length
            high_risk_items := high_risk.length }
          (identity_results.take 5) (access_results.take 5)
          (generate_recommendations identity_results access_results)
          env.violationsData env.riskSummaryData now
    | _, _ => .failed "Failed to collect data from SailPoint" now

/-- State of `OrchestratorService` (orchestrator_api.py lines 27-43):
whether `initialize_orchestrator` succeeded, the `audit_status` string and
the `current_audit` reference. -/
structure ServiceState where
  orchestratorAvailable : Bool
  audit_status : String
  current_audit : Option AuditOutcome
deriving DecidableEq, Repr

/-- The dictionary returned synchronously by `OrchestratorService.start_audit`
(`status` and `message` keys). -/
structure StartResp where
  status : String
  message : String
deriving DecidableEq, Repr

/-- Embedding of `OrchestratorService.start_audit` (orchestrator_api.py
lines 45-65): reject when an audit is already running or the orchestrator
is unavailable, both without touching state; otherwise set `audit_status`
to "running", clear `current_audit`, and spawn the background run. -/
def start_audit (st : ServiceState) : StartResp × ServiceState :=
  if st.audit_status = "running" then
    ({ status := "error", message := "Audit already in progress" }, st)
  else if !st.orchestratorAvailable then
    ({ status := "error", message := "Orchestrator not available" }, st)
  else
    ({ status := "started", message := "Audit started in background" },
     { st with audit_status := "running", current_audit := none })

/-- Embedding of `OrchestratorService._run_audit_background`
(orchestrator_api.py lines 67-81), success branch of its `try`: store the
outcome of `run_full_compliance_audit` in `current_audit` and set
`audit_status := "completed"`.  The `except` branch (which sets
`audit_status := "error"`) runs only when `run_full_compliance_audit`
itself raises, which the embedded total function never does — in
particular it does not run when the audit merely returns its error-shaped
dictionary. -/
def run_audit_background (now : Int) (modelLoaded : Bool)
    (modelOut : Except Unit String) (env : SourceEnv) (st : ServiceState) : ServiceState :=
  let result := run_full_compliance_audit now modelLoaded modelOut env
  { st with current_audit := some result, audit_status := "completed" }

/-- The dictionary returned by `ComplianceOrchestrator.get_identity_details`
(compliance_orchestrator.py lines 499-504), or its error shape
`{"error": "Identity not found"}` (line 480). -/
inductive DetailsResult where
  | err (msg : String)
  | found (identity : RecordData) (identity_analysis : ComplianceAnalysis)
      (access_records : List (RecordData × ComplianceAnalysis)) (timestamp : Int)
deriving DecidableEq, Repr

/-- Embedding of `get_identity_details` (compliance_orchestrator.py
lines 474-504): `identityResp` is the filtered identity pull, `accessResp`
the access-record pull for that identity.  A failed pull and a successful
pull with no items both return `{"error": "Identity not found"}`; otherwise
the first item is analyzed, and access analyses are collected only when the
access pull succeeded. -/
def get_identity_details (now : Int) (modelLoaded : Bool)
    (modelOut : Except Unit String) (identityResp accessResp : FetchResp) : DetailsResult :=
  match identityResp with
  | .failure _ => .err "Identity not found"
  | .ok [] => .err "Identity not found"
  | .ok (i :: _) =>
      let ia := analyze_identity_risk modelLoaded modelOut now i
      let aas := match accessResp with
        | .ok items => items.map (fun a => (a, analyze_access_compliance modelLoaded modelOut now a))
        | .failure _ => []
      .found i ia aas now

/-! ### Helper definitions and lemmas -/

/-- The starting risk score of the rule-based identity path: the record's
own `riskScore`, 0.5 when absent. -/
def base_risk (identity : RecordData) : ℚ := identity.riskScore.getD (1/2)

/-- The identity risk score after the `Terminated` increment, which is the
value the source's `risk_score > 0.7` check actually inspects. -/
def risk_after_terminated (identity : RecordData) : ℚ :=
  base_risk identity + (if identity.status = some "Terminated" then 1/2 else 0)

/-- Whether the 90-day check fires: a present, parseable last login more
than 90 days before `now`. -/
def stale_login (now : Int) (identity : RecordData) : Bool :=
  match identity.lastLogin with
  | some (.loginDay d) => decide (now - d > 90)
  | _ => false

/-- Concrete identity with riskScore 0.2 fed to the model path (C1). -/
def c1Rec : RecordData := { riskScore := some (1/5) }

/-- Concrete identity with a negative provided riskScore (C2). -/
def c2Neg : RecordData := { riskScore := some (-(1/2)) }

/-- Concrete Terminated identity with riskScore 0.3 (C3). -/
def c3Term : RecordData := { riskScore := some (3/10), status := some "Terminated" }

/-- Concrete access record of spec Example 1: compliance sox=false,
gdpr=true, all other flags benign (C4). -/
def c4Ex : RecordData :=
  { compliance := [("sox", false), ("gdpr", true)], violatesSOD := some false,
    isPrivileged := some false, certificationStatus := some "Certified",
    riskLevel := some "Low" }

/-- Concrete Terminated identity with riskScore 0.9 (C5). -/
def c5Term : RecordData := { riskScore := some (9/10), status := some "Terminated" }

/-- Concrete data-source round whose health check reports unhealthy (C6). -/
def c6Env : SourceEnv :=
  { health := { status := "unhealthy", error := some "connection refused" },
    identities := .ok [], accessRecords := .ok [],
    violationsData := "", riskSummaryData := "" }

/-- Service state of an in-flight run (C6). -/
def c6Running : ServiceState :=
  { orchestratorAvailable := true, audit_status := "running", current_audit := none }

/-- Service state of an in-flight run (C7). -/
def c7Running : ServiceState :=
  { orchestratorAvailable := true, audit_status := "running", current_audit := none }

/-- Concrete identity whose last login parses and is 89 or 91 days old
depending on the invocation clock (C9). -/
def c9Stale : RecordData := { riskScore := some (1/2), lastLogin := some (.loginDay 0) }

/-- Concrete identity with no last-login key (C9 witness). -/
def c9NoLogin : RecordData := { riskScore := some (1/5) }

lemma min_one_le_half (q : ℚ) : min q 1 ≤ 1/2 ↔ q ≤ 1/2 := by
  rw [min_le_iff]
  constructor
  · rintro (h | h)
    · exact h
    · linarith
  · exact fun h => Or.inl h

lemma access_fold_eq (l : List (String × Bool)) (v : List String) (s : ℚ) :
    l.foldl (fun (acc : List String × ℚ) p =>
      if p.2 then acc
      else (acc.1 ++ [strUpper p.1 ++ " compliance violation"], acc.2 + 1/5)) (v, s)
    = (v ++ (l.filter (fun p => !p.2)).map (fun p => strUpper p.1 ++ " compliance violation"),
       s + (1/5) * ((l.filter (fun p => !p.2)).length : ℚ)) := by
  induction l generalizing v s with
  | nil => simp
  | cons h t ih =>
    cases hb : h.2
    · simp only [List.foldl_cons, hb, Bool.false_eq_true, if_false]
      rw [ih]
      simp only [List.filter_cons, hb, Bool.not_false, if_pos, List.map_cons,
        List.length_cons, Prod.mk.injEq, List.append_assoc, List.cons_append,
        List.nil_append]
      refine ⟨trivial, ?_⟩
      push_cast
      ring
    · simp only [List.foldl_cons, hb, if_true]
      rw [ih]
      simp [List.filter_cons, hb]

lemma access_checks_eq (r : RecordData) :
    access_checks r =
    ((r.compliance.filter (fun p => !p.2)).map (fun p => strUpper p.1 ++ " compliance violation")
      ++ (if r.violatesSOD.getD false then ["Segregation of duties violation"] else [])
      ++ (if r.isPrivileged.getD false then ["Privileged access requires review"] else [])
      ++ (if r.certificationStatus = some "Expired" then ["Expired certification"] else [])
      ++ (if r.riskLevel = some "High" then ["High risk access"] else []),
     3/10 + (1/5) * ((r.compliance.filter (fun p => !p.2)).length : ℚ)
      + (if r.violatesSOD.getD false then 3/10 else 0)
      + (if r.isPrivileged.getD false then 1/5 else 0)
      + (if r.certificationStatus = some "Expired" then 1/5 else 0)
      + (if r.riskLevel = some "High" then 1/5 else 0)) := by
  unfold access_checks
  rw [access_fold_eq]
  by_cases h1 : r.violatesSOD.getD false <;>
  by_cases h2 : r.isPrivileged.getD false <;>
  by_cases h3 : r.certificationStatus = some "Expired" <;>
  by_cases h4 : r.riskLevel = some "High" <;>
  simp [h1, h2, h3, h4]

lemma identity_checks_eq (now : Int) (identity : RecordData) :
    identity_checks now identity =
    ((if identity.status = some "Terminated"
        then ["Terminated user with active accounts"] else [])
      ++ (if risk_after_terminated identity > 7/10 then ["High risk score"] else [])
      ++ (if identity.clearanceLevel = some "Restricted"
        then ["Restricted clearance requires review"] else [])
      ++ (if stale_login now identity then ["No login activity for 90+ days"] else []),
     risk_after_terminated identity + (if stale_login now identity then 1/5 else 0)) := by
  unfold identity_checks risk_after_terminated base_risk stale_login
  rcases hl : identity.lastLogin with _ | st
  · by_cases h1 : identity.status = some "Terminated" <;>
    by_cases h3 : identity.clearanceLevel = some "Restricted" <;>
    simp [h1, h3] <;> split <;> simp
  · rcases st with _ | d
    · by_cases h1 : identity.status = some "Terminated" <;>
      by_cases h3 : identity.clearanceLevel = some "Restricted" <;>
      simp [h1, h3] <;> split <;> simp
    · by_cases h1 : identity.status = some "Terminated" <;>
      by_cases h3 : identity.clearanceLevel = some "Restricted" <;>
      by_cases h4 : now - d > 90 <;>
      simp [h1, h3, h4] <;> split <;> simp

lemma compliant_iff_core (v : List String) (s : ℚ) :
    (v.isEmpty && decide (s ≤ (1/2:ℚ))) = true ↔ (v = [] ∧ min s 1 ≤ 1/2) := by
  rw [min_one_le_half]
  simp [List.isEmpty_iff]

lemma access_checks_risk_lb (r : RecordData) : (3:ℚ)/10 ≤ (access_checks r).2 := by
  rw [access_checks_eq]
  have h0 : (0:ℚ) ≤ 1/5 * ((r.compliance.filter (fun p => !p.2)).length : ℚ) := by positivity
  have h1 : (0:ℚ) ≤ (if r.violatesSOD.getD false then (3:ℚ)/10 else 0) := by
    split <;> norm_num
  have h2 : (0:ℚ) ≤ (if r.isPrivileged.getD false then (1:ℚ)/5 else 0) := by
    split <;> norm_num
  have h3 : (0:ℚ) ≤ (if r.certificationStatus = some "Expired" then (1:ℚ)/5 else 0) := by
    split <;> norm_num
  have h4 : (0:ℚ) ≤ (if r.riskLevel = some "High" then (1:ℚ)/5 else 0) := by
    split <;> norm_num
  dsimp only
  linarith

/-! ### Claim theorems -/

/-- C1 (amended): on the rule-based paths, the returned analysis satisfies
is_compliant = true if and only if its violations list is empty and its
risk_score is at most 0.5; on the model-assisted path the biconditional
can fail. -/
theorem C1_rule_based_compliance_biconditional :
    ∀ (now : Int) (r : RecordData),
      ((rule_based_identity_analysis now r).is_compliant = true ↔
        ((rule_based_identity_analysis now r).violations = [] ∧
         (rule_based_identity_analysis now r).risk_score ≤ 1/2)) ∧
      ((rule_based_access_analysis now r).is_compliant = true ↔
        ((rule_based_access_analysis now r).violations = [] ∧
         (rule_based_access_analysis now r).risk_score ≤ 1/2)) := by
  intro now r
  exact ⟨compliant_iff_core (identity_checks now r).1 (identity_checks now r).2,
    compliant_iff_core (access_checks r).1 (access_checks r).2⟩

/-- C1 counterexample: on the model-assisted path, the model response
"compliant sod" on an identity with riskScore 0.2 yields
is_compliant = true together with a non-empty violations list, so the
biconditional fails. -/
theorem C1_model_path_counterexample :
    ¬ (((analyze_identity_risk true (.ok "compliant sod") 0 c1Rec).is_compliant = true) ↔
       ((analyze_identity_risk true (.ok "compliant sod") 0 c1Rec).violations = [] ∧
        (analyze_identity_risk true (.ok "compliant sod") 0 c1Rec).risk_score ≤ 1/2)) := by
  have h1 : (analyze_identity_risk true (.ok "compliant sod") 0 c1Rec).is_compliant = true := by
    simp only [analyze_identity_risk, ai_analysis, parse_ai_response, c1Rec, strLower,
      strContainsStr, if_true]
    decide
  have h2 : (analyze_identity_risk true (.ok "compliant sod") 0 c1Rec).violations =
      ["Segregation of duties violation"] := by
    simp only [analyze_identity_risk, ai_analysis, parse_ai_response, c1Rec, strLower,
      strContainsStr, if_true]
    decide
  intro h
  have h3 := (h.mp h1).1
  rw [h2] at h3
  exact List.cons_ne_nil _ _ h3

/-- C2 (amended): the rule-based access path clamps risk_score into
[0.3, 1.0]; the rule-based identity path clamps only from above at 1.0
(a negative provided riskScore passes through below 0). -/
theorem C2_rule_based_risk_bounds :
    ∀ (now : Int) (r : RecordData),
      ((3/10 : ℚ) ≤ (rule_based_access_analysis now r).risk_score ∧
        (rule_based_access_analysis now r).risk_score ≤ 1) ∧
      (rule_based_identity_analysis now r).risk_score ≤ 1 := by
  intro now r
  refine ⟨⟨?_, min_le_right _ _⟩, min_le_right _ _⟩
  exact le_min (access_checks_risk_lb r) (by norm_num)

/-- C2 counterexample: an identity whose provided riskScore is -0.5 is
returned by the rule-based identity path with risk_score -0.5, outside
[0.0, 1.0]. -/
theorem C2_negative_risk_counterexample :
    ¬ ((0:ℚ) ≤ (rule_based_identity_analysis 0 c2Neg).risk_score ∧
       (rule_based_identity_analysis 0 c2Neg).risk_score ≤ 1) := by
  simp [rule_based_identity_analysis, identity_checks, c2Neg, min_def]
  norm_num

/-- C3 (amended): rule-based identity analysis starts from the identity's
own riskScore (0.5 when absent); status Terminated adds 0.5 and a
terminated-user tag; a risk score greater than 0.7 measured after the
Terminated increment (not the pre-increment value) adds a "High risk
score" tag with no increment; Restricted clearance adds a tag with no
increment; a parseable last login more than 90 days old adds 0.2 and a
tag, and a missing or malformed last login is silently skipped; the
returned risk_score is the accumulated value clamped above at 1.0. -/
theorem C3_identity_rule_characterization :
    ∀ (now : Int) (identity : RecordData),
      (rule_based_identity_analysis now identity).violations =
        (if identity.status = some "Terminated"
          then ["Terminated user with active accounts"] else [])
        ++ (if risk_after_terminated identity > 7/10 then ["High risk score"] else [])
        ++ (if identity.clearanceLevel = some "Restricted"
          then ["Restricted clearance requires review"] else [])
        ++ (if stale_login now identity then ["No login activity for 90+ days"] else []) ∧
      (rule_based_identity_analysis now identity).risk_score =
        min (risk_after_terminated identity + (if stale_login now identity then 1/5 else 0)) 1 ∧
      risk_after_terminated identity =
        identity.riskScore.getD (1/2) +
          (if identity.status = some "Terminated" then 1/2 else 0) := by
  intro now identity
  refine ⟨?_, ?_, rfl⟩
  · show (identity_checks now identity).1 = _
    rw [identity_checks_eq]
  · show min (identity_checks now identity).2 1 = _
    rw [identity_checks_eq]

/-- C3 counterexample: a Terminated identity with provided riskScore 0.3
receives the "High risk score" tag although its pre-increment risk score
0.3 is not greater than 0.7 — the check runs after the Terminated
increment. -/
theorem C3_post_increment_counterexample :
    (rule_based_identity_analysis 0 c3Term).violations =
      ["Terminated user with active accounts", "High risk score"] ∧
    ¬ (base_risk c3Term > 7/10) := by
  constructor
  · simp [rule_based_identity_analysis, identity_checks, c3Term]
    norm_num
  · simp [base_risk, c3Term]
    norm_num

/-- C4: rule-based access analysis starts from baseline 0.3 and adds,
independently, 0.2 with a regime tag per false compliance flag, 0.3 for a
true SOD flag, 0.2 for a true privileged flag, 0.2 for Expired
certification and 0.2 for High risk level (clamped above at 1.0); the
Example 1 record (sox false, gdpr true, all else benign) yields
risk_score 0.5, violations ["SOX compliance violation"] and
is_compliant false. -/
theorem C4_access_rule_characterization :
    (∀ (now : Int) (r : RecordData),
      (rule_based_access_analysis now r).violations =
        (r.compliance.filter (fun p => !p.2)).map
          (fun p => strUpper p.1 ++ " compliance violation")
        ++ (if r.violatesSOD.getD false then ["Segregation of duties violation"] else [])
        ++ (if r.isPrivileged.getD false then ["Privileged access requires review"] else [])
        ++ (if r.certificationStatus = some "Expired" then ["Expired certification"] else [])
        ++ (if r.riskLevel = some "High" then ["High risk access"] else []) ∧
      (rule_based_access_analysis now r).risk_score =
        min (3/10 + (1/5) * ((r.compliance.filter (fun p => !p.2)).length : ℚ)
          + (if r.violatesSOD.getD false then 3/10 else 0)
          + (if r.isPrivileged.getD false then 1/5 else 0)
          + (if r.certificationStatus = some "Expired" then 1/5 else 0)
          + (if r.riskLevel = some "High" then 1/5 else 0)) 1) ∧
    (rule_based_access_analysis 0 c4Ex).risk_score = 1/2 ∧
    (rule_based_access_analysis 0 c4Ex).violations = ["SOX compliance violation"] ∧
    (rule_based_access_analysis 0 c4Ex).is_compliant = false := by
  refine ⟨fun now r => ⟨?_, ?_⟩, ?_, ?_, ?_⟩
  · show (access_checks r).1 = _
    rw [access_checks_eq]
  · show min (access_checks r).2 1 = _
    rw [access_checks_eq]
  · simp [rule_based_access_analysis, access_checks, c4Ex, min_def]
    norm_num
  · simp [rule_based_access_analysis, access_checks, c4Ex, strUpper]
  · simp [rule_based_access_analysis, access_checks, c4Ex, strUpper]

/-- C5: when the model is loaded but raises, `_ai_analysis` falls back to
the rule-based ACCESS analysis even for an identity: on a Terminated
identity with riskScore 0.9 the analyze call returns the access-rule
result (no violations, analysis_type "rule_based"), while the identity
rules would have flagged it. -/
theorem C5_ai_failure_fallback_uses_access_rules :
    analyze_identity_risk true (.error ()) 0 c5Term = rule_based_access_analysis 0 c5Term ∧
    (analyze_identity_risk true (.error ()) 0 c5Term).violations = [] ∧
    (analyze_identity_risk true (.error ()) 0 c5Term).analysis_type = "rule_based" ∧
    (rule_based_identity_analysis 0 c5Term).violations =
      ["Terminated user with active accounts", "High risk score"] := by
  refine ⟨rfl, ?_, rfl, ?_⟩
  · simp [analyze_identity_risk, ai_analysis, rule_based_access_analysis, access_checks, c5Term]
  · simp [rule_based_identity_analysis, identity_checks, c5Term]
    norm_num

/-- C6 (amended): when the data source health check reports a non-healthy
status, the audit returns an AuditResult with status "error" whose message
carries the source's error text, and the run is independent of every other
source response (no identities or access records are pulled or analyzed);
however the Audit Run Registry's lifecycle status transitions from Running
to Completed — only the result dictionary carries the error, the registry
"error" state is reserved for a raised exception. -/
theorem C6_unhealthy_source_run (env : SourceEnv) (now : Int) (ml : Bool)
    (mo : Except Unit String) (st : ServiceState)
    (h : env.health.status ≠ "healthy") :
    (run_full_compliance_audit now ml mo env).status = "error" ∧
    (run_full_compliance_audit now ml mo env).message =
      some ("SailPoint API unavailable: " ++ env.health.error.getD "Unknown error") ∧
    (∀ (ids accs : FetchResp) (vd rd : String),
      run_full_compliance_audit now ml mo
        { health := env.health, identities := ids, accessRecords := accs,
          violationsData := vd, riskSummaryData := rd }
      = run_full_compliance_audit now ml mo env) ∧
    (run_audit_background now ml mo env st).audit_status = "completed" ∧
    (run_audit_background now ml mo env st).current_audit =
      some (.failed ("SailPoint API unavailable: " ++ env.health.error.getD "Unknown error") now) := by
  refine ⟨?_, ?_, ?_, rfl, ?_⟩ <;>
    simp [run_full_compliance_audit, run_audit_background, h,
      AuditOutcome.status, AuditOutcome.message]

/-- C6 witness: the theorem applied to a concrete unhealthy source
environment and a running service state. -/
theorem C6_unhealthy_source_run_witness :
    (run_full_compliance_audit 0 false (.error ()) c6Env).status = "error" ∧
    (run_audit_background 0 false (.error ()) c6Env c6Running).audit_status = "completed" :=
  ⟨(C6_unhealthy_source_run c6Env 0 false (.error ()) c6Running (by decide)).1,
   (C6_unhealthy_source_run c6Env 0 false (.error ()) c6Running (by decide)).2.2.2.1⟩

/-- C6 counterexample: with a concrete unhealthy source, the background run
leaves the registry status "completed", not "error" — the claimed
Running → Error transition does not happen. -/
theorem C6_registry_counterexample :
    c6Env.health.status ≠ "healthy" ∧
    (run_audit_background 0 false (.error ()) c6Env c6Running).audit_status = "completed" ∧
    (run_audit_background 0 false (.error ()) c6Env c6Running).audit_status ≠ "error" := by
  refine ⟨by decide, rfl, by decide⟩

/-- C7: a start_audit call while the registry status is "running" returns
the already-in-progress rejection and mutates no state, so the eventual
background publication of the first run is unchanged. -/
theorem C7_start_while_running_rejected (st : ServiceState)
    (h : st.audit_status = "running") :
    (start_audit st).1 = { status := "error", message := "Audit already in progress" } ∧
    (start_audit st).2 = st ∧
    ∀ (now : Int) (ml : Bool) (mo : Except Unit String) (env : SourceEnv),
      run_audit_background now ml mo env (start_audit st).2 =
        run_audit_background now ml mo env st := by
  refine ⟨?_, ?_, ?_⟩ <;> simp [start_audit, h]

/-- C7 witness: the theorem applied to a concrete running service state. -/
theorem C7_start_while_running_witness :
    (start_audit c7Running).1 = { status := "error", message := "Audit already in progress" } ∧
    (start_audit c7Running).2 = c7Running :=
  ⟨(C7_start_while_running_rejected c7Running rfl).1,
   (C7_start_while_running_rejected c7Running rfl).2.1⟩

/-- C8 (amended): an analysis body that raised is downgraded to exactly the
fixed sentinel is_compliant false, risk_score 0.5,
violations ["Analysis failed"] (capital A, as the source writes it),
recommendation MANUAL_REVIEW, confidence 0.0, analysis_type default; a
body that returned is passed through, so the guard itself never fails. -/
theorem C8_default_sentinel :
    ∀ (now : Int),
      analyze_guarded now (.error ()) =
        { is_compliant := false, risk_score := 1/2, violations := ["Analysis failed"],
          recommendation := "MANUAL_REVIEW", ai_response := "Unable to complete analysis",
          confidence := 0, analysis_type := "default", timestamp := now } ∧
      ∀ (a : ComplianceAnalysis), analyze_guarded now (.ok a) = a := by
  intro now
  exact ⟨rfl, fun a => rfl⟩

/-- C8 counterexample: the sentinel's violation tag is "Analysis failed",
not the claimed lower-case "analysis failed". -/
theorem C8_sentinel_tag_counterexample :
    (default_analysis 0).violations = ["Analysis failed"] ∧
    (default_analysis 0).violations ≠ ["analysis failed"] := by
  refine ⟨rfl, by decide⟩

/-- C9 (amended): rule-based access scoring is deterministic in its input
regardless of invocation time (identical records give identical violations,
risk_score and is_compliant, the timestamp field aside); rule-based
identity scoring is time-independent only when the last login is absent or
malformed, because the 90-day check compares the last login against the
invocation clock. -/
theorem C9_rule_based_determinism :
    (∀ (r : RecordData) (t1 t2 : Int),
      (rule_based_access_analysis t1 r).violations = (rule_based_access_analysis t2 r).violations ∧
      (rule_based_access_analysis t1 r).risk_score = (rule_based_access_analysis t2 r).risk_score ∧
      (rule_based_access_analysis t1 r).is_compliant =
        (rule_based_access_analysis t2 r).is_compliant) ∧
    (∀ (i : RecordData) (t1 t2 : Int),
      (i.lastLogin = none ∨ i.lastLogin = some .malformed) →
      (rule_based_identity_analysis t1 i).violations =
        (rule_based_identity_analysis t2 i).violations ∧
      (rule_based_identity_analysis t1 i).risk_score =
        (rule_based_identity_analysis t2 i).risk_score) := by
  constructor
  · exact fun r t1 t2 => ⟨rfl, rfl, rfl⟩
  · rintro i t1 t2 (h | h) <;>
    · constructor <;> simp [rule_based_identity_analysis, identity_checks, h]

/-- C9 witness: the theorem applied to a concrete identity with no
last-login key at two different invocation times. -/
theorem C9_rule_based_determinism_witness :
    (rule_based_identity_analysis 0 c9NoLogin).violations =
      (rule_based_identity_analysis 5 c9NoLogin).violations :=
  (C9_rule_based_determinism.2 c9NoLogin 0 5 (Or.inl rfl)).1

/-- C9 counterexample: an identity whose parseable last login is 91 days
old at the second invocation but only 89 at the first gets different
violations and a different risk_score, so identity scoring is not a pure
function of the record alone. -/
theorem C9_time_dependence_counterexample :
    (rule_based_identity_analysis 89 c9Stale).violations ≠
      (rule_based_identity_analysis 91 c9Stale).violations ∧
    (rule_based_identity_analysis 89 c9Stale).risk_score ≠
      (rule_based_identity_analysis 91 c9Stale).risk_score := by
  constructor
  · simp [rule_based_identity_analysis, identity_checks, c9Stale, min_def]
  · simp [rule_based_identity_analysis, identity_checks, c9Stale, min_def]
    norm_num

/-- C10: get_identity_details returns the same structured not-found
indication both when the identity pull fails outright and when it succeeds
with no matching items — a caller cannot distinguish the two cases. -/
theorem C10_not_found_indistinguishable :
    ∀ (now : Int) (ml : Bool) (mo : Except Unit String) (msg : String) (ar : FetchResp),
      get_identity_details now ml mo (.failure msg) ar = .err "Identity not found" ∧
      get_identity_details now ml mo (.ok []) ar = .err "Identity not found" := by
  intro now ml mo msg ar
  exact ⟨rfl, rfl⟩
